import Mathlib

/-!
Shallow embedding of `app.py`, an interactive HTTP/JSON catalog client.

Modelling conventions:
* A response body is carried as `Option Json`: `some v` stands for a body whose
  text is valid JSON parsing to the value `v`, `none` for a body that
  `json.loads` rejects.  Python exceptions (JSONDecodeError, KeyError,
  TypeError, ValueError) are modelled by an explicit error flag or `Option`.
* `print(x)` calls are collected into a `List String` of printed lines, in
  order; `print()` contributes the empty line `""`.
* The HTTP transport (`requests`) is the external collaborator: each catalog
  operation is a function of the `Response` the transport would return, and of
  the operator-supplied arguments; the `Request` it builds is returned
  alongside the printed trace.
-/

/-- JSON values, as produced by `json.loads`.  Numbers are restricted to
integers: every numeric literal any theorem below evaluates is an integer. -/
inductive Json where
  | jnull : Json
  | jbool (b : Bool) : Json
  | jnum (n : Int) : Json
  | jstr (s : String) : Json
  | jarr (elems : List Json) : Json
  | jobj (fields : List (String × Json)) : Json

/-- Python `str()` of a scalar JSON value, as interpolated by an f-string.
Containers are rendered structurally (Python `repr` quotes inner strings; no
theorem below renders a container, so the quoting is elided). -/
def pyStr : Json → String
  | .jnull => "None"
  | .jbool b => if b then "True" else "False"
  | .jnum n => toString n
  | .jstr s => s
  | .jarr _ => "[...]"
  | .jobj _ => "\x7b...\x7d"

/-- Python dict lookup on the association list of an object: with duplicate
keys the last binding wins (as in `json.loads`). -/
def pyDictGet : List (String × Json) → String → Option Json
  | [], _ => none
  | (k, v) :: rest, key =>
    match pyDictGet rest key with
    | some v2 => some v2
    | none => if k = key then some v else none

/-- Python subscript `j[key]` with a string key: a value for objects holding
the key, `none` for a KeyError (key absent) or TypeError (not a dict). -/
def pySubscript (j : Json) (key : String) : Option Json :=
  match j with
  | .jobj fields => pyDictGet fields key
  | _ => none

/-- Python iteration `for x in j` over a decoded JSON value: lists yield their
elements, strings their characters, dicts their keys; other values raise
TypeError (`none`). -/
def pyIter : Json → Option (List Json)
  | .jarr elems => some elems
  | .jstr s => some (s.toList.map fun c => .jstr (String.singleton c))
  | .jobj fields => some (fields.map fun kv => Json.jstr kv.1)
  | _ => none

/-- An HTTP response: numeric status code, and the body (`some v` when the
body is valid JSON decoding to `v`, `none` otherwise). -/
structure Response where
  status : Nat
  body : Option Json

/-- Property `requests.Response.ok`: `True` iff `raise_for_status` does not raise,
i.e. iff the status code is outside the 4xx/5xx ranges (400–599). -/
def Response.ok (r : Response) : Bool :=
  !(400 ≤ r.status && r.status < 600)

def BASE_URL : String := "http://localhost:5000/"

/-- The HTTP method of a request class (`GetRequest`, `PostRequest`,
`PatchRequest`, `DeleteRequest` — the class determines the `requests` call
made by `send`). -/
inductive Method where
  | GET : Method
  | POST : Method
  | PATCH : Method
  | DELETE : Method
deriving DecidableEq

def methodName : Method → String
  | .GET => "GET"
  | .POST => "POST"
  | .PATCH => "PATCH"
  | .DELETE => "DELETE"

/-- A constructed request object: the class identity (method), the url stored
by `__init__`, and the JSON payload stored for POST/PATCH (`GetRequest` and
`DeleteRequest` store no payload; a stored `None` payload sends no body, so it
coincides with `none`). -/
structure Request where
  method : Method
  url : String
  payload : Option (List (String × Json))

/-- Factory `APIRequestFactory.create_request(url, method, data=None)`: dispatches on
the method string; an unrecognized method falls through every branch and
returns `None`. -/
def create_request (url : String) (method : String)
    (data : Option (List (String × Json))) : Option Request :=
  if method = "GET" then some ⟨.GET, url, none⟩
  else if method = "POST" then some ⟨.POST, url, data⟩
  else if method = "PATCH" then some ⟨.PATCH, url, data⟩
  else if method = "DELETE" then some ⟨.DELETE, url, none⟩
  else none

/-- Method `CategoryAdapter.display`: prints `f"{title} (ID: {id})"` then the
description.  Returns the lines printed and whether a KeyError/TypeError
escaped (the f-string evaluates its subscripts before printing, so a missing
title or id prints nothing; a missing description prints only the first
line). -/
def CategoryAdapter.display (category : Json) : List String × Bool :=
  match pySubscript category "title", pySubscript category "id" with
  | some t, some i =>
    let line1 := pyStr t ++ " (ID: " ++ pyStr i ++ ")"
    match pySubscript category "description" with
    | some d => ([line1, pyStr d], false)
    | none => ([line1], true)
  | _, _ => ([], true)

/-- Method `ProductAdapter.display`: prints `f"{name} (ID: {id}, Price: {price})"`
then the description. -/
def ProductAdapter.display (product : Json) : List String × Bool :=
  match pySubscript product "name", pySubscript product "id",
        pySubscript product "price" with
  | some n, some i, some p =>
    let line1 := pyStr n ++ " (ID: " ++ pyStr i ++ ", Price: " ++ pyStr p ++ ")"
    match pySubscript product "description" with
    | some d => ([line1, pyStr d], false)
    | none => ([line1], true)
  | _, _, _ => ([], true)

/-- Trace of one catalog operation: the lines it printed, whether it invoked
`json.loads` on the body, and whether an uncaught exception escaped. -/
structure OpTrace where
  output : List String
  decoded : Bool
  exn : Bool
deriving DecidableEq

/-- The `for`-loop shared by the list operations: display each element
followed by `print()` (a blank line); an exception in a display aborts the
loop. -/
def displayLoop (disp : Json → List String × Bool) : List Json → List String × Bool
  | [] => ([], false)
  | x :: xs =>
    let r := disp x
    if r.2 then (r.1, true)
    else
      let rest := displayLoop disp xs
      (r.1 ++ [""] ++ rest.1, rest.2)

/-- Strategy `CategoryListStrategy.list_categories` applied to the transport's
response (`CategoryStrategyContext.list_categories` forwards to it
unchanged). -/
def CategoryListStrategy.list_categories (r : Response) : OpTrace :=
  if r.ok then
    match r.body with
    | none => ⟨[], true, true⟩
    | some j =>
      match pyIter j with
      | none => ⟨[], true, true⟩
      | some elems =>
        let res := displayLoop CategoryAdapter.display elems
        ⟨res.1, true, res.2⟩
  else ⟨["Error fetching categories: " ++ toString r.status], false, false⟩

/-- Function `list_categories()`: builds a GET request for `/categories` and runs the
list strategy on the response. -/
def list_categories (r : Response) : Option Request × OpTrace :=
  (create_request (BASE_URL ++ "/categories") "GET" none,
   CategoryListStrategy.list_categories r)

/-- Function `show_category(category_id)`. -/
def show_category (category_id : String) (r : Response) : Option Request × OpTrace :=
  (create_request (BASE_URL ++ ("/categories/" ++ category_id)) "GET" none,
   if r.ok then
     match r.body with
     | none => ⟨[], true, true⟩
     | some j =>
       let res := CategoryAdapter.display j
       ⟨res.1, true, res.2⟩
   else ⟨["Error fetching category: " ++ toString r.status], false, false⟩)

/-- Function `create_category(title, description)`. -/
def create_category (title description : String) (r : Response) :
    Option Request × OpTrace :=
  (create_request (BASE_URL ++ "/categories") "POST"
      (some [("title", .jstr title), ("description", .jstr description)]),
   if r.ok then
     match r.body with
     | none => ⟨[], true, true⟩
     | some j =>
       match pySubscript j "id" with
       | none => ⟨[], true, true⟩
       | some i => ⟨["Category created with ID: " ++ pyStr i], true, false⟩
   else ⟨["Error creating category: " ++ toString r.status], false, false⟩)

/-- Function `delete_category(category_id)`. -/
def delete_category (category_id : String) (r : Response) :
    Option Request × OpTrace :=
  (create_request (BASE_URL ++ ("/categories/" ++ category_id)) "DELETE" none,
   if r.ok then ⟨["Category deleted"], false, false⟩
   else ⟨["Error deleting category: " ++ toString r.status], false, false⟩)

/-- Function `change_category_title(category_id, new_title)`. -/
def change_category_title (category_id new_title : String) (r : Response) :
    Option Request × OpTrace :=
  (create_request (BASE_URL ++ ("/categories/" ++ category_id)) "PATCH"
      (some [("title", .jstr new_title)]),
   if r.ok then ⟨["Category title updated"], false, false⟩
   else ⟨["Error updating category title: " ++ toString r.status], false, false⟩)

/-- Function `create_product(category_id, name, price, description)`; the price
arrives already parsed to a number. -/
def create_product (category_id name : String) (price : Json)
    (description : String) (r : Response) : Option Request × OpTrace :=
  (create_request (BASE_URL ++ ("/categories/" ++ category_id ++ "/products")) "POST"
      (some [("name", .jstr name), ("price", price),
             ("description", .jstr description)]),
   if r.ok then
     match r.body with
     | none => ⟨[], true, true⟩
     | some j =>
       match pySubscript j "id" with
       | none => ⟨[], true, true⟩
       | some i => ⟨["Product created with ID: " ++ pyStr i], true, false⟩
   else ⟨["Error creating product: " ++ toString r.status], false, false⟩)

/-- Function `list_products(category_id)`. -/
def list_products (category_id : String) (r : Response) : Option Request × OpTrace :=
  (create_request (BASE_URL ++ ("/categories/" ++ category_id ++ "/products")) "GET" none,
   if r.ok then
     match r.body with
     | none => ⟨[], true, true⟩
     | some j =>
       match pyIter j with
       | none => ⟨[], true, true⟩
       | some elems =>
         let res := displayLoop ProductAdapter.display elems
         ⟨res.1, true, res.2⟩
   else ⟨["Error fetching products: " ++ toString r.status], false, false⟩)

/-- Python `list.remove(x)`: delete the first element equal to `x`; `none`
models the ValueError raised when no element matches. -/
def pyRemove {α : Type} [DecidableEq α] (x : α) : List α → Option (List α)
  | [] => none
  | a :: as => if a = x then some as else (pyRemove x as).map (a :: ·)

/-- Method `ObservableCategory.attach(observer)`: `self.observers.append(observer)`. -/
def ObservableCategory.attach {α : Type} (observers : List α) (o : α) : List α :=
  observers ++ [o]

/-- Method `ObservableCategory.detach(observer)`: `self.observers.remove(observer)`
(`none` = uncaught ValueError when the observer is not attached). -/
def ObservableCategory.detach {α : Type} [DecidableEq α]
    (observers : List α) (o : α) : Option (List α) :=
  pyRemove o observers

/-- Method `ObservableCategory.notify(category)`: calls `observer.update(category)`
on each attached observer in list order; the result is the sequence of update
invocations made, in call order. -/
def ObservableCategory.notify {α : Type} (observers : List α) (category : Json) :
    List (α × Json) :=
  observers.map fun o => (o, category)

/-- Strip leading and trailing spaces from a character list. -/
def trimSpaces (cs : List Char) : List Char :=
  ((cs.dropWhile (· = ' ')).reverse.dropWhile (· = ' ')).reverse

/-- Split a character list at every dot. -/
def splitDot : List Char → List (List Char)
  | [] => [[]]
  | c :: rest =>
    let r := splitDot rest
    if c = '.' then [] :: r
    else
      match r with
      | h :: t => (c :: h) :: t
      | [] => [[c]]

/-- Modelled from Python `float(str)` acceptance: optional surrounding
whitespace, optional sign, then digits with at most one decimal point (at
least one digit overall).  Exponent and inf/nan forms, which Python also
accepts, are omitted; no theorem below evaluates such an input. -/
def pyFloatValid (s : String) : Bool :=
  let cs := trimSpaces s.toList
  let cs2 := match cs with
    | '+' :: t => t
    | '-' :: t => t
    | t => t
  match splitDot cs2 with
  | [i] => !i.isEmpty && i.all (·.isDigit)
  | [i, f] => i.all (·.isDigit) && f.all (·.isDigit) && !(i.isEmpty && f.isEmpty)
  | _ => false

/-- The eight menu lines printed at the top of every loop iteration. -/
def menuLines : List String :=
  ["1. List categories", "2. Show category details", "3. Create a category",
   "4. Delete a category", "5. Change category title", "6. Create a product",
   "7. List products in a category", "0. Exit"]

/-- How the `while True` shell loop ended: `finished` via the `break` on
choice `0`, `crashed` via the uncaught ValueError of `float(input(...))` on a
non-numeric price in choice `6`. -/
inductive ShellOutcome where
  | finished : ShellOutcome
  | crashed : ShellOutcome
deriving DecidableEq

/-- The `while True` menu loop, driven by the list of operator input lines
(one per `input()` call) with a fuel bound on iterations.  Returns the
shell-printed lines (menu and invalid-choice messages; the output of the
dispatched catalog operations depends on the external transport and is
modelled by the operation functions above, not collected here) and the
outcome: `none` when fuel or operator input runs out with the loop still
live, otherwise how it ended. -/
def shellRun : Nat → List String → List String × Option ShellOutcome
  | 0, _ => ([], none)
  | _ + 1, [] => ([], none)
  | fuel + 1, choice :: rest =>
    let step := fun (extra : List String) (rest2 : List String) =>
      let r := shellRun fuel rest2
      (menuLines ++ extra ++ r.1, r.2)
    if choice = "1" then step [] rest
    else if choice = "2" then
      match rest with
      | _ :: r2 => step [] r2
      | [] => (menuLines, none)
    else if choice = "3" then
      match rest with
      | _ :: _ :: r2 => step [] r2
      | _ => (menuLines, none)
    else if choice = "4" then
      match rest with
      | _ :: r2 => step [] r2
      | [] => (menuLines, none)
    else if choice = "5" then
      match rest with
      | _ :: _ :: r2 => step [] r2
      | _ => (menuLines, none)
    else if choice = "6" then
      match rest with
      | _ :: _ :: price :: r2 =>
        if pyFloatValid price then
          match r2 with
          | _ :: r3 => step [] r3
          | [] => (menuLines, none)
        else (menuLines, some .crashed)
      | _ => (menuLines, none)
    else if choice = "7" then
      match rest with
      | _ :: r2 => step [] r2
      | [] => (menuLines, none)
    else if choice = "0" then (menuLines, some .finished)
    else step ["Invalid choice. Please try again."] rest

/-- C3: for every method m in GET/POST/PATCH/DELETE and every optional data
argument, the factory builds a request whose method is m and whose payload is
present iff m is POST or PATCH and data was supplied; GET and DELETE ignore
any supplied data. -/
theorem factory_method_payload (url : String)
    (data : Option (List (String × Json))) (m : String)
    (hm : m ∈ ["GET", "POST", "PATCH", "DELETE"]) :
    ∃ req : Request, create_request url m data = some req ∧
      methodName req.method = m ∧
      req.url = url ∧
      (req.payload.isSome ↔ ((m = "POST" ∨ m = "PATCH") ∧ data.isSome)) ∧
      ((m = "GET" ∨ m = "DELETE") → req.payload = none) ∧
      ((m = "POST" ∨ m = "PATCH") → req.payload = data) := by
  simp only [List.mem_cons, List.not_mem_nil, or_false] at hm
  rcases hm with rfl | rfl | rfl | rfl
  · exact ⟨⟨.GET, url, none⟩, by simp [create_request, methodName]⟩
  · exact ⟨⟨.POST, url, data⟩, by simp [create_request, methodName]⟩
  · exact ⟨⟨.PATCH, url, data⟩, by simp [create_request, methodName]⟩
  · exact ⟨⟨.DELETE, url, none⟩, by simp [create_request, methodName]⟩

/-- Witness for `factory_method_payload` at m = POST with a payload. -/
theorem factory_method_payload_witness :
    ("POST" : String) ∈ ["GET", "POST", "PATCH", "DELETE"] ∧
    ∃ req : Request,
      create_request "u" "POST" (some [("title", .jstr "T")]) = some req ∧
      methodName req.method = "POST" ∧ req.payload = some [("title", .jstr "T")] := by
  have h := factory_method_payload "u" (some [("title", .jstr "T")]) "POST"
    (by simp)
  obtain ⟨req, h1, h2, _, _, _, h6⟩ := h
  exact ⟨by simp, req, h1, h2, h6 (Or.inl rfl)⟩

/-- C4: every catalog operation's request URL is the configured base URL
followed by exactly the resource path of the operations table (with the
operator-supplied id substituted), nothing else in between. -/
theorem request_urls (category_id : String) (r : Response)
    (t d n de : String) (p : Json) :
    ((list_categories r).1.map Request.url) = some (BASE_URL ++ "/categories") ∧
    ((show_category category_id r).1.map Request.url) =
      some (BASE_URL ++ ("/categories/" ++ category_id)) ∧
    ((create_category t d r).1.map Request.url) = some (BASE_URL ++ "/categories") ∧
    ((delete_category category_id r).1.map Request.url) =
      some (BASE_URL ++ ("/categories/" ++ category_id)) ∧
    ((change_category_title category_id t r).1.map Request.url) =
      some (BASE_URL ++ ("/categories/" ++ category_id)) ∧
    ((create_product category_id n p de r).1.map Request.url) =
      some (BASE_URL ++ ("/categories/" ++ category_id ++ "/products")) ∧
    ((list_products category_id r).1.map Request.url) =
      some (BASE_URL ++ ("/categories/" ++ category_id ++ "/products")) := by
  refine ⟨?_, ?_, ?_, ?_, ?_, ?_, ?_⟩ <;>
    simp [list_categories, show_category, create_category, delete_category,
      change_category_title, create_product, list_products, create_request]

/-- C5: on a success response whose body decodes to a mapping holding an
"id" field, create-category prints exactly one line, "Category created with
ID: " followed by that id. -/
theorem create_category_reports_id (title description : String) (r : Response)
    (fields : List (String × Json)) (v : Json)
    (hok : r.ok = true)
    (hbody : r.body = some (.jobj fields))
    (hid : pyDictGet fields "id" = some v) :
    (create_category title description r).2 =
      ⟨["Category created with ID: " ++ pyStr v], true, false⟩ := by
  simp [create_category, hok, hbody, pySubscript, hid]

/-- Witness for `create_category_reports_id`: body
`{"id": 7, "title": "X", "description": "Y"}` yields exactly
"Category created with ID: 7". -/
theorem create_category_reports_id_witness :
    (Response.ok ⟨201, some (.jobj [("id", .jnum 7), ("title", .jstr "X"),
        ("description", .jstr "Y")])⟩ = true) ∧
    (create_category "X" "Y" ⟨201, some (.jobj [("id", .jnum 7),
        ("title", .jstr "X"), ("description", .jstr "Y")])⟩).2 =
      ⟨["Category created with ID: 7"], true, false⟩ := by
  have h := create_category_reports_id "X" "Y"
    ⟨201, some (.jobj [("id", .jnum 7), ("title", .jstr "X"),
      ("description", .jstr "Y")])⟩
    [("id", .jnum 7), ("title", .jstr "X"), ("description", .jstr "Y")]
    (.jnum 7) (by decide) rfl rfl
  exact ⟨by decide, h.trans (by decide)⟩

/-- C7: presenting a category mapping that has title, id and description
fields yields a first line holding both the title and the id, and a second
line holding the description, with no exception. -/
theorem category_display_layout (c : Json) (t i d : Json)
    (ht : pySubscript c "title" = some t)
    (hi : pySubscript c "id" = some i)
    (hd : pySubscript c "description" = some d) :
    CategoryAdapter.display c =
      ([pyStr t ++ " (ID: " ++ pyStr i ++ ")", pyStr d], false) ∧
    ∃ mid suf, pyStr t ++ " (ID: " ++ pyStr i ++ ")" =
      pyStr t ++ mid ++ pyStr i ++ suf := by
  refine ⟨?_, " (ID: ", ")", rfl⟩
  simp [CategoryAdapter.display, ht, hi, hd]

/-- Witness for `category_display_layout` with title "Books" and ID 3. -/
theorem category_display_layout_witness :
    pySubscript (.jobj [("title", .jstr "Books"), ("id", .jnum 3),
      ("description", .jstr "All books")]) "title" = some (.jstr "Books") ∧
    CategoryAdapter.display (.jobj [("title", .jstr "Books"), ("id", .jnum 3),
      ("description", .jstr "All books")]) =
      (["Books (ID: 3)", "All books"], false) := by
  have h := category_display_layout
    (.jobj [("title", .jstr "Books"), ("id", .jnum 3),
      ("description", .jstr "All books")])
    (.jstr "Books") (.jnum 3) (.jstr "All books") rfl rfl rfl
  exact ⟨rfl, h.1.trans (by decide)⟩

/-- C1 counterexample: a 304 response is not in the 2xx range, yet
show-category classifies it as success and decodes the body. -/
theorem responseOk_not_2xx_only :
    Response.ok ⟨304, none⟩ = true ∧ ¬(200 ≤ 304 ∧ 304 ≤ 299) ∧
    ((show_category "1" ⟨304, some (.jobj [("title", .jstr "T"),
      ("id", .jnum 1), ("description", .jstr "D")])⟩).2).decoded = true := by
  refine ⟨by decide, by decide, by decide⟩

/-- C1 (amended): every operation classifies a response as success exactly
when its status code is outside 400–599 (so every 2xx is a success, but so
are 1xx and 3xx); any other status is a failure reported verbatim via its
numeric code. -/
theorem responseOk_classification (r : Response) (category_id : String) :
    (r.ok = true ↔ ¬(400 ≤ r.status ∧ r.status ≤ 599)) ∧
    (200 ≤ r.status ∧ r.status ≤ 299 → r.ok = true) ∧
    (r.ok = false →
      (CategoryListStrategy.list_categories r).output =
        ["Error fetching categories: " ++ toString r.status] ∧
      ((show_category category_id r).2).output =
        ["Error fetching category: " ++ toString r.status]) := by
  refine ⟨?_, ?_, ?_⟩
  · simp only [Response.ok, Bool.not_eq_true', Bool.and_eq_false_iff,
      decide_eq_false_iff_not, not_lt, not_le]
    constructor
    · intro h
      rcases h with h | h <;> omega
    · intro h
      omega
  · intro h
    simp only [Response.ok, Bool.not_eq_true', Bool.and_eq_false_iff,
      decide_eq_false_iff_not, not_lt, not_le]
    omega
  · intro h
    constructor
    · simp [CategoryListStrategy.list_categories, h]
    · simp [show_category, h]

/-- Witness for `responseOk_classification` at statuses 404 and 204. -/
theorem responseOk_classification_witness :
    Response.ok ⟨204, none⟩ = true ∧
    Response.ok ⟨404, none⟩ = false ∧
    ((show_category "9" ⟨404, none⟩).2).output =
      ["Error fetching category: 404"] := by
  have h2 := (responseOk_classification ⟨204, none⟩ "9").2.1 (by decide)
  have h3 := (responseOk_classification ⟨404, none⟩ "9").2.2 (by decide)
  exact ⟨h2, by decide, h3.2.trans (by decide)⟩

/-- C2: show-category and create-product only invoke `json.loads` on a
response they classify as success; on a failure response they print exactly
one error line carrying the numeric status code, decode nothing, present
nothing, and raise nothing. -/
theorem decode_only_on_success (category_id name description : String)
    (price : Json) (r : Response) :
    (((show_category category_id r).2).decoded = true → r.ok = true) ∧
    (((create_product category_id name price description r).2).decoded = true →
      r.ok = true) ∧
    (r.ok = false →
      (show_category category_id r).2 =
        ⟨["Error fetching category: " ++ toString r.status], false, false⟩ ∧
      (create_product category_id name price description r).2 =
        ⟨["Error creating product: " ++ toString r.status], false, false⟩) := by
  refine ⟨?_, ?_, ?_⟩
  · intro h
    by_contra hok
    rw [Bool.not_eq_true] at hok
    simp [show_category, hok] at h
  · intro h
    by_contra hok
    rw [Bool.not_eq_true] at hok
    simp [create_product, hok] at h
  · intro hok
    exact ⟨by simp [show_category, hok], by simp [create_product, hok]⟩

/-- Witness for `decode_only_on_success`: a 404 response with an undecodable
body makes show-category print "Error fetching category: 404" and nothing
else, without decoding. -/
theorem decode_only_on_success_witness :
    Response.ok ⟨404, none⟩ = false ∧
    (show_category "7" ⟨404, none⟩).2 =
      ⟨["Error fetching category: 404"], false, false⟩ := by
  have h := (decode_only_on_success "7" "n" "d" (.jnum 1) ⟨404, none⟩).2.2
    (by decide)
  exact ⟨by decide, h.1.trans (by decide)⟩

/-- The list-display loop on elements that all display cleanly produces each
element's lines followed by one blank line, in input order. -/
theorem displayLoop_all_ok (disp : Json → List String × Bool)
    (elems : List Json) (h : ∀ e ∈ elems, (disp e).2 = false) :
    displayLoop disp elems =
      ((elems.map fun e => (disp e).1 ++ [""]).flatten, false) := by
  induction elems with
  | nil => simp [displayLoop]
  | cons x xs ih =>
    have hx := h x (by simp)
    have hxs := ih fun e he => h e (by simp [he])
    simp [displayLoop, hx, hxs]

/-- C6: on a success response whose body decodes to a list of cleanly
displayable product records, list-products renders each record's presentation
in input order with exactly one blank line after each (hence exactly one
blank line between consecutive presentations); two records give the two
presentations separated by one blank line, and an empty list gives no output
and no error, for products and for categories alike. -/
theorem list_products_blank_line_separated (category_id : String)
    (r : Response) (elems : List Json)
    (hok : r.ok = true) (hbody : r.body = some (.jarr elems))
    (hdisp : ∀ e ∈ elems, (ProductAdapter.display e).2 = false) :
    ((list_products category_id r).2 =
      ⟨(elems.map fun e => (ProductAdapter.display e).1 ++ [""]).flatten,
        true, false⟩) ∧
    (∀ p1 p2, elems = [p1, p2] →
      ((list_products category_id r).2).output =
        (ProductAdapter.display p1).1 ++ [""] ++
        (ProductAdapter.display p2).1 ++ [""]) ∧
    (elems = [] → (list_products category_id r).2 = ⟨[], true, false⟩) ∧
    (CategoryListStrategy.list_categories ⟨r.status, some (.jarr [])⟩ =
      ⟨[], true, false⟩) := by
  have hloop := displayLoop_all_ok ProductAdapter.display elems hdisp
  have hmain : (list_products category_id r).2 =
      ⟨(elems.map fun e => (ProductAdapter.display e).1 ++ [""]).flatten,
        true, false⟩ := by
    simp [list_products, hok, hbody, pyIter, hloop]
  refine ⟨hmain, ?_, ?_, ?_⟩
  · intro p1 p2 he
    subst he
    rw [hmain]
    simp
  · intro he
    subst he
    simpa using hmain
  · have hok2 : Response.ok ⟨r.status, some (.jarr [])⟩ = true := hok
    simp [CategoryListStrategy.list_categories, hok2, pyIter, displayLoop]

/-- Witness for `list_products_blank_line_separated` on two concrete
products. -/
theorem list_products_blank_line_separated_witness :
    ((list_products "4" ⟨200, some (.jarr
        [.jobj [("name", .jstr "Pen"), ("id", .jnum 1), ("price", .jnum 2),
                ("description", .jstr "Blue pen")],
         .jobj [("name", .jstr "Ink"), ("id", .jnum 2), ("price", .jnum 3),
                ("description", .jstr "Black ink")]])⟩).2).output =
      ["Pen (ID: 1, Price: 2)", "Blue pen", "",
       "Ink (ID: 2, Price: 3)", "Black ink", ""] := by
  have h := (list_products_blank_line_separated "4"
    ⟨200, some (.jarr
      [.jobj [("name", .jstr "Pen"), ("id", .jnum 1), ("price", .jnum 2),
              ("description", .jstr "Blue pen")],
       .jobj [("name", .jstr "Ink"), ("id", .jnum 2), ("price", .jnum 3),
              ("description", .jstr "Black ink")]])⟩
    [.jobj [("name", .jstr "Pen"), ("id", .jnum 1), ("price", .jnum 2),
            ("description", .jstr "Blue pen")],
     .jobj [("name", .jstr "Ink"), ("id", .jnum 2), ("price", .jnum 3),
            ("description", .jstr "Black ink")]]
    (by decide) rfl (by decide)).1
  exact congrArg OpTrace.output h |>.trans (by decide)

/-- C8: attaching listeners A then B yields the state [A, B]; notify then
invokes A's update followed by B's update, in attachment order, and with
A ≠ B these are two distinct invocations (each listener exactly once);
after detaching A, notify invokes only B. -/
theorem observer_attach_notify_detach {α : Type} [DecidableEq α]
    (A B : α) (cat : Json) (hAB : A ≠ B) :
    ObservableCategory.attach (ObservableCategory.attach ([] : List α) A) B
      = [A, B] ∧
    ObservableCategory.notify [A, B] cat = [(A, cat), (B, cat)] ∧
    ((A, cat) : α × Json) ≠ (B, cat) ∧
    ObservableCategory.detach [A, B] A = some [B] ∧
    ObservableCategory.notify [B] cat = [(B, cat)] := by
  refine ⟨rfl, rfl, fun h => hAB (congrArg Prod.fst h), ?_, rfl⟩
  simp [ObservableCategory.detach, pyRemove]

/-- Witness for `observer_attach_notify_detach` with listeners 0 and 1. -/
theorem observer_attach_notify_detach_witness :
    (0 : Nat) ≠ 1 ∧
    ObservableCategory.attach (ObservableCategory.attach ([] : List Nat) 0) 1
      = [0, 1] ∧
    ObservableCategory.notify [0, 1] .jnull = [(0, .jnull), (1, .jnull)] ∧
    ObservableCategory.detach [0, 1] 0 = some [1] ∧
    ObservableCategory.notify [1] .jnull = [(1, .jnull)] := by
  have h := observer_attach_notify_detach 0 1 .jnull (by decide)
  exact ⟨by decide, h.1, h.2.1, h.2.2.2.1, h.2.2.2.2⟩

/-- Python `list.remove` on a list without the element: ValueError (`none`). -/
theorem pyRemove_eq_none {α : Type} [DecidableEq α] (x : α) (s : List α)
    (h : x ∉ s) : pyRemove x s = none := by
  induction s with
  | nil => rfl
  | cons a as ih =>
    have ha : ¬(a = x) := fun he => h (he ▸ List.mem_cons_self a as)
    have has : x ∉ as := fun he => h (List.mem_cons_of_mem a he)
    simp [pyRemove, ha, ih has]

/-- Python `list.remove` deletes exactly the first occurrence. -/
theorem pyRemove_first {α : Type} [DecidableEq α] (x : α) (pre suf : List α)
    (h : x ∉ pre) : pyRemove x (pre ++ x :: suf) = some (pre ++ suf) := by
  induction pre with
  | nil => simp [pyRemove]
  | cons a as ih =>
    have ha : ¬(a = x) := fun he => h (he ▸ List.mem_cons_self a as)
    have has : x ∉ as := fun he => h (List.mem_cons_of_mem a he)
    simp [pyRemove, ha, ih has]

/-- C10: detaching a listener that is not attached raises (ValueError), not
a silent no-op; detaching an attached listener removes exactly its first
occurrence and leaves the other listeners and their order unchanged. -/
theorem detach_not_attached_raises {α : Type} [DecidableEq α]
    (o : α) (s pre suf : List α) :
    (o ∉ s → ObservableCategory.detach s o = none) ∧
    (s = pre ++ o :: suf → o ∉ pre →
      ObservableCategory.detach s o = some (pre ++ suf)) := by
  constructor
  · intro h
    exact pyRemove_eq_none o s h
  · intro hs hpre
    rw [hs]
    exact pyRemove_first o pre suf hpre

/-- Witness for `detach_not_attached_raises` on concrete lists of naturals. -/
theorem detach_not_attached_raises_witness :
    ((2 : Nat) ∉ [0, 1] ∧ ObservableCategory.detach [0, 1] (2 : Nat) = none) ∧
    (([0, 1, 2, 1] : List Nat) = [0] ++ 1 :: [2, 1] ∧ (1 : Nat) ∉ [0] ∧
      ObservableCategory.detach [0, 1, 2, 1] (1 : Nat) = some [0, 2, 1]) := by
  have h := detach_not_attached_raises (2 : Nat) [0, 1] [] []
  have h2 := detach_not_attached_raises (1 : Nat) [0, 1, 2, 1] [0] [2, 1]
  exact ⟨⟨by decide, h.1 (by decide)⟩,
    ⟨by decide, by decide, h2.2 (by decide) (by decide)⟩⟩

/-- Structural invariant of the shell loop: a `finished` outcome means the
choice "0" occurred among the inputs, and a `crashed` outcome means some
iteration read choice "6" followed by an id, a name, and a price rejected by
`float`. -/
theorem shellRun_outcome : ∀ (fuel : Nat) (inputs : List String),
    ((shellRun fuel inputs).2 = some ShellOutcome.finished → "0" ∈ inputs) ∧
    ((shellRun fuel inputs).2 = some ShellOutcome.crashed →
      ∃ k id name price r2,
        inputs.drop k = "6" :: id :: name :: price :: r2 ∧
        pyFloatValid price = false) := by
  intro fuel
  induction fuel with
  | zero =>
    intro inputs
    simp [shellRun]
  | succ f ih =>
    intro inputs
    match inputs with
    | [] => simp [shellRun]
    | choice :: rest =>
      by_cases h1 : choice = "1"
      · subst h1
        have hs : shellRun (f + 1) ("1" :: rest) =
            (menuLines ++ (shellRun f rest).1, (shellRun f rest).2) := by
          simp [shellRun]
        constructor
        · intro h
          exact List.mem_cons_of_mem _ ((ih rest).1 (by simpa [hs] using h))
        · intro h
          obtain ⟨k, i, n, p, r2, hd, hv⟩ := (ih rest).2 (by simpa [hs] using h)
          exact ⟨k + 1, i, n, p, r2, by simpa using hd, hv⟩
      by_cases h2 : choice = "2"
      · subst h2
        rcases rest with _ | ⟨a, r2⟩
        · simp [shellRun]
        · have hs : shellRun (f + 1) ("2" :: a :: r2) =
              (menuLines ++ (shellRun f r2).1, (shellRun f r2).2) := by
            simp [shellRun]
          constructor
          · intro h
            exact List.mem_cons_of_mem _ (List.mem_cons_of_mem _
              ((ih r2).1 (by simpa [hs] using h)))
          · intro h
            obtain ⟨k, i, n, p, r3, hd, hv⟩ := (ih r2).2 (by simpa [hs] using h)
            exact ⟨k + 1 + 1, i, n, p, r3, by simpa using hd, hv⟩
      by_cases h3 : choice = "3"
      · subst h3
        rcases rest with _ | ⟨a, _ | ⟨b, r2⟩⟩
        · simp [shellRun]
        · simp [shellRun]
        · have hs : shellRun (f + 1) ("3" :: a :: b :: r2) =
              (menuLines ++ (shellRun f r2).1, (shellRun f r2).2) := by
            simp [shellRun]
          constructor
          · intro h
            exact List.mem_cons_of_mem _ (List.mem_cons_of_mem _
              (List.mem_cons_of_mem _ ((ih r2).1 (by simpa [hs] using h))))
          · intro h
            obtain ⟨k, i, n, p, r3, hd, hv⟩ := (ih r2).2 (by simpa [hs] using h)
            exact ⟨k + 1 + 1 + 1, i, n, p, r3, by simpa using hd, hv⟩
      by_cases h4 : choice = "4"
      · subst h4
        rcases rest with _ | ⟨a, r2⟩
        · simp [shellRun]
        · have hs : shellRun (f + 1) ("4" :: a :: r2) =
              (menuLines ++ (shellRun f r2).1, (shellRun f r2).2) := by
            simp [shellRun]
          constructor
          · intro h
            exact List.mem_cons_of_mem _ (List.mem_cons_of_mem _
              ((ih r2).1 (by simpa [hs] using h)))
          · intro h
            obtain ⟨k, i, n, p, r3, hd, hv⟩ := (ih r2).2 (by simpa [hs] using h)
            exact ⟨k + 1 + 1, i, n, p, r3, by simpa using hd, hv⟩
      by_cases h5 : choice = "5"
      · subst h5
        rcases rest with _ | ⟨a, _ | ⟨b, r2⟩⟩
        · simp [shellRun]
        · simp [shellRun]
        · have hs : shellRun (f + 1) ("5" :: a :: b :: r2) =
              (menuLines ++ (shellRun f r2).1, (shellRun f r2).2) := by
            simp [shellRun]
          constructor
          · intro h
            exact List.mem_cons_of_mem _ (List.mem_cons_of_mem _
              (List.mem_cons_of_mem _ ((ih r2).1 (by simpa [hs] using h))))
          · intro h
            obtain ⟨k, i, n, p, r3, hd, hv⟩ := (ih r2).2 (by simpa [hs] using h)
            exact ⟨k + 1 + 1 + 1, i, n, p, r3, by simpa using hd, hv⟩
      by_cases h6 : choice = "6"
      · subst h6
        rcases rest with _ | ⟨a, _ | ⟨b, _ | ⟨c, r2⟩⟩⟩
        · simp [shellRun]
        · simp [shellRun]
        · simp [shellRun]
        · by_cases hv : pyFloatValid c
          · rcases r2 with _ | ⟨d, r3⟩
            · simp [shellRun, hv]
            · have hs : shellRun (f + 1) ("6" :: a :: b :: c :: d :: r3) =
                  (menuLines ++ (shellRun f r3).1, (shellRun f r3).2) := by
                simp [shellRun, hv]
              constructor
              · intro h
                exact List.mem_cons_of_mem _ (List.mem_cons_of_mem _
                  (List.mem_cons_of_mem _ (List.mem_cons_of_mem _
                    (List.mem_cons_of_mem _
                      ((ih r3).1 (by simpa [hs] using h))))))
              · intro h
                obtain ⟨k, i, n, p, r4, hd, hv2⟩ :=
                  (ih r3).2 (by simpa [hs] using h)
                exact ⟨k + 1 + 1 + 1 + 1 + 1, i, n, p, r4,
                  by simpa using hd, hv2⟩
          · have hs : shellRun (f + 1) ("6" :: a :: b :: c :: r2) =
                (menuLines, some ShellOutcome.crashed) := by
              simp [shellRun, hv]
            constructor
            · intro h
              rw [hs] at h
              simp at h
            · intro _
              exact ⟨0, a, b, c, r2, rfl, by simpa using hv⟩
      by_cases h7 : choice = "7"
      · subst h7
        rcases rest with _ | ⟨a, r2⟩
        · simp [shellRun]
        · have hs : shellRun (f + 1) ("7" :: a :: r2) =
              (menuLines ++ (shellRun f r2).1, (shellRun f r2).2) := by
            simp [shellRun]
          constructor
          · intro h
            exact List.mem_cons_of_mem _ (List.mem_cons_of_mem _
              ((ih r2).1 (by simpa [hs] using h)))
          · intro h
            obtain ⟨k, i, n, p, r3, hd, hv⟩ := (ih r2).2 (by simpa [hs] using h)
            exact ⟨k + 1 + 1, i, n, p, r3, by simpa using hd, hv⟩
      by_cases h0 : choice = "0"
      · subst h0
        have hs : shellRun (f + 1) ("0" :: rest) =
            (menuLines, some ShellOutcome.finished) := by
          simp [shellRun]
        constructor
        · intro _
          exact List.mem_cons_self _ _
        · intro h
          rw [hs] at h
          simp at h
      · have hs : shellRun (f + 1) (choice :: rest) =
            (menuLines ++ "Invalid choice. Please try again." ::
              (shellRun f rest).1, (shellRun f rest).2) := by
          simp [shellRun, h1, h2, h3, h4, h5, h6, h7, h0]
        constructor
        · intro h
          exact List.mem_cons_of_mem _ ((ih rest).1 (by simpa [hs] using h))
        · intro h
          obtain ⟨k, i, n, p, r2, hd, hv⟩ := (ih rest).2 (by simpa [hs] using h)
          exact ⟨k + 1, i, n, p, r2, by simpa using hd, hv⟩

/-- C9 counterexample: with operator inputs 6, "1", "Pen", "abc" the loop
terminates (via the uncaught ValueError of `float("abc")`) although the
selection "0" was never entered. -/
theorem shell_loop_float_crash :
    (shellRun 1 ["6", "1", "Pen", "abc"]).2 = some ShellOutcome.crashed ∧
    "0" ∉ (["6", "1", "Pen", "abc"] : List String) := by
  exact ⟨by decide, by decide⟩

/-- C9 (amended): selecting "0" terminates the loop at once; a normal
(`break`) termination happens only when "0" was entered; the only other way
out of the loop is the uncaught ValueError raised when choice "6" is given a
price that `float` rejects; an unrecognized selection prints
"Invalid choice. Please try again." and re-loops on the remaining inputs. -/
theorem shell_loop_exit :
    (∀ fuel rest, (shellRun (fuel + 1) ("0" :: rest)).2 =
      some ShellOutcome.finished) ∧
    (∀ fuel inputs, (shellRun fuel inputs).2 = some ShellOutcome.finished →
      "0" ∈ inputs) ∧
    (∀ fuel inputs, (shellRun fuel inputs).2 = some ShellOutcome.crashed →
      ∃ k id name price r2,
        inputs.drop k = "6" :: id :: name :: price :: r2 ∧
        pyFloatValid price = false) ∧
    (∀ fuel choice rest,
      choice ∉ (["0", "1", "2", "3", "4", "5", "6", "7"] : List String) →
      shellRun (fuel + 1) (choice :: rest) =
        (menuLines ++ "Invalid choice. Please try again." ::
          (shellRun fuel rest).1, (shellRun fuel rest).2)) := by
  refine ⟨?_, ?_, ?_, ?_⟩
  · intro fuel rest
    simp [shellRun]
  · intro fuel inputs
    exact (shellRun_outcome fuel inputs).1
  · intro fuel inputs
    exact (shellRun_outcome fuel inputs).2
  · intro fuel choice rest h
    simp only [List.mem_cons, List.not_mem_nil, or_false, not_or] at h
    obtain ⟨n0, n1, n2, n3, n4, n5, n6, n7⟩ := h
    simp [shellRun, n0, n1, n2, n3, n4, n5, n6, n7]

/-- Witness for `shell_loop_exit`: immediate exit on "0"; an invalid choice
"9" re-loops; the crashing run yields the promised "6"-iteration shape. -/
theorem shell_loop_exit_witness :
    (shellRun 1 ["0"]).2 = some ShellOutcome.finished ∧
    "0" ∈ (["1", "0"] : List String) ∧
    (∃ k id name price r2,
      (["6", "1", "Pen", "abc"] : List String).drop k =
        "6" :: id :: name :: price :: r2 ∧ pyFloatValid price = false) ∧
    shellRun 2 ["9", "0"] =
      (menuLines ++ "Invalid choice. Please try again." ::
        (shellRun 1 ["0"]).1, (shellRun 1 ["0"]).2) := by
  refine ⟨shell_loop_exit.1 0 [], ?_, ?_, ?_⟩
  · exact shell_loop_exit.2.1 2 ["1", "0"] (by decide)
  · exact shell_loop_exit.2.2.1 1 ["6", "1", "Pen", "abc"] (by decide)
  · exact shell_loop_exit.2.2.2 1 "9" ["0"] (by decide)
